import Mathlib

set_option maxRecDepth 8000

namespace AiLLMOps

/-! Shallow embedding of the check evaluation engine of the repository
(`src/scripts/checker.py` and its older duplicate `src/checker.py`, class
`InfraChecker`).  Text is modeled as `List Char`, Python floats as `ℚ`
(exact arithmetic; IEEE rounding and float overflow are idealized away,
and the model of Python `float(...)` parsing covers the finite decimal
literal forms with optional sign and exponent, not `inf`/`nan` or digit
grouping underscores).  Every definition names the source code it embeds. -/

/-- The `CheckStatus` enumeration of `checker.py` (both copies). -/
inductive CheckStatus where
  | OK
  | WARNING
  | CRITICAL
  | UNKNOWN
deriving DecidableEq, Repr

/-- Characters stripped by Python `str.strip()` (ASCII whitespace). -/
def isPySpace (c : Char) : Bool :=
  c == ' ' || c == '\t' || c == '\n' || c == '\r' || c == '\x0b' || c == '\x0c'

/-- Python `str.strip()`: remove leading and trailing whitespace. -/
def pyStrip (l : List Char) : List Char :=
  ((l.dropWhile isPySpace).reverse.dropWhile isPySpace).reverse

/-- Python `str.split(sep)` for a single-character separator: the result is
never empty and has one more piece than there are separator occurrences. -/
def splitCh (sep : Char) : List Char → List (List Char)
  | [] => [[]]
  | c :: r =>
    match splitCh sep r with
    | [] => [[]]
    | h :: t => if c = sep then [] :: h :: t else (c :: h) :: t

/-- Helper for `wordsCh`: accumulate the current word (reversed). -/
def wordsAux : List Char → List Char → List (List Char)
  | [], acc => if acc = [] then [] else [acc.reverse]
  | c :: r, acc =>
    if isPySpace c then
      if acc = [] then wordsAux r [] else acc.reverse :: wordsAux r []
    else wordsAux r (c :: acc)

/-- Python `str.split()` with no argument: split on whitespace runs,
producing no empty pieces. -/
def wordsCh (l : List Char) : List (List Char) :=
  wordsAux l []

/-- Membership test for a character, Python `c in s`. -/
def hasChar (c : Char) (l : List Char) : Bool :=
  l.any (fun a => a == c)

/-- Python `needle in hay` substring test. -/
def beginsWith : List Char → List Char → Bool
  | [], _ => true
  | _ :: _, [] => false
  | a :: as, b :: bs => a == b && beginsWith as bs

/-- Substring containment, Python `needle in hay`. -/
def containsSub (needle : List Char) : List Char → Bool
  | [] => needle.isEmpty
  | c :: r => beginsWith needle (c :: r) || containsSub needle r

/-- Python `str.lower()` (the model lowercases each character). -/
def lowerCh (l : List Char) : List Char :=
  l.map Char.toLower

/-- Value of a list of decimal digit characters, most significant first. -/
def digitsVal (ds : List Char) : ℕ :=
  ds.foldl (fun n c => 10 * n + (c.toNat - 48)) 0

/-- Value of a fractional digit run: `fracVal "25" = 25/100`. -/
def fracVal (fs : List Char) : ℚ :=
  (digitsVal fs : ℚ) / (10 : ℚ) ^ fs.length

/-- The regex search of `src/scripts/checker.py` line 80:
`re.search(r'(\d+(\.\d+)?)', s)` — scan for the first run of digits and
then optionally a decimal point followed by at least one digit.  This
returns the matched integer and fraction digit runs (the fraction run is
empty when the optional group did not match); `firstNum` turns them into
the exact decimal value. -/
def firstNumParts : List Char → Option (List Char × List Char)
  | [] => none
  | c :: rest =>
    if c.isDigit then
      let ds := (c :: rest).takeWhile Char.isDigit
      match (c :: rest).dropWhile Char.isDigit with
      | '.' :: r2 =>
        let fs := r2.takeWhile Char.isDigit
        if fs = [] then some (ds, []) else some (ds, fs)
      | _ => some (ds, [])
    else firstNumParts rest

/-- Exact value of an integer digit run plus a fraction digit run
(`float(match.group(1))` in `src/scripts/checker.py` line 84). -/
def decValue (ds fs : List Char) : ℚ :=
  (digitsVal ds : ℚ) + fracVal fs

/-- First decimal number occurring in a string, per the regex search of
`src/scripts/checker.py` line 80. -/
def firstNum (l : List Char) : Option ℚ :=
  (firstNumParts l).map (fun p => decValue p.1 p.2)

/-- Syntactic shape of a Python float literal, produced by
`pyFloatParts`: sign, integer digits, fraction digits, exponent sign and
exponent digits (both empty when no exponent is present). -/
structure FloatParts where
  neg : Bool
  ip : List Char
  fp : List Char
  eneg : Bool
  eds : List Char
deriving DecidableEq, Repr

/-- Parse of Python `float(s)` on an already stripped string: an optional
sign, an integer part and/or a fractional part (at least one digit
overall), and an optional exponent.  Returns `none` exactly when Python
raises `ValueError` (finite decimal literal forms; see the module
comment). -/
def pyFloatParts (s : List Char) : Option FloatParts :=
  let sgnRest : Bool × List Char :=
    match s with
    | '+' :: r => (false, r)
    | '-' :: r => (true, r)
    | _ => (false, s)
  let s1 := sgnRest.2
  let ip := s1.takeWhile Char.isDigit
  let r1 := s1.dropWhile Char.isDigit
  let fpRest : List Char × List Char :=
    match r1 with
    | '.' :: r => (r.takeWhile Char.isDigit, r.dropWhile Char.isDigit)
    | _ => ([], r1)
  let fp := fpRest.1
  if ip = [] ∧ fp = [] then none
  else
    match fpRest.2 with
    | [] => some ⟨sgnRest.1, ip, fp, false, []⟩
    | e :: r3 =>
      if e = 'e' ∨ e = 'E' then
        let esgnRest : Bool × List Char :=
          match r3 with
          | '+' :: r => (false, r)
          | '-' :: r => (true, r)
          | _ => (false, r3)
        let eds := esgnRest.2.takeWhile Char.isDigit
        if eds = [] ∨ esgnRest.2.dropWhile Char.isDigit ≠ [] then none
        else some ⟨sgnRest.1, ip, fp, esgnRest.1, eds⟩
      else none

/-- Exact value of a parsed Python float literal. -/
def FloatParts.val (p : FloatParts) : ℚ :=
  (if p.neg then -1 else 1) * decValue p.ip p.fp *
    (10 : ℚ) ^ ((if p.eneg then -1 else 1) * (digitsVal p.eds : ℤ))

/-- Python `float(s)` on an already stripped string (see
`pyFloatParts`). -/
def pyFloat (s : List Char) : Option ℚ :=
  (pyFloatParts s).map FloatParts.val

/-- Cleanup shared by both evaluator copies:
`value.replace('%', '').replace('개', '').strip()`. -/
def cleanValue (value : List Char) : List Char :=
  pyStrip (value.filter (fun c => !(c == '%') && !(c == '개')))

/-- Numeric extraction of `src/scripts/checker.py` lines 77–84: cleanup,
then regex search for the first decimal run. -/
def extractNumeric (value : List Char) : Option ℚ :=
  firstNum (cleanValue value)

/-- Numeric extraction of `src/checker.py` line 73: cleanup, then Python
`float(...)` over the whole cleaned string. -/
def extractNumericPlain (value : List Char) : Option ℚ :=
  pyFloat (cleanValue value)

/-- The hardcoded `zero_is_ok` identifier list (both copies). -/
def zeroIsOkSet : List String :=
  ["OS-005", "K8S-008", "SVC-004", "SVC-006", "SVC-007", "SVC-008", "SVC-010"]

/-- Zero-is-healthy branch of `_evaluate_threshold` (both copies, lines
88–94 of the scripts copy). -/
def classifyZero (x : ℚ) : CheckStatus :=
  if x = 0 then .OK
  else if x ≤ 3 then .WARNING
  else .CRITICAL

/-- Monotonic-threshold branch of `_evaluate_threshold` (both copies,
lines 96–101 of the scripts copy); `0.8` is modeled exactly as `4/5`. -/
def classifyThreshold (x t : ℚ) : CheckStatus :=
  if x < t * (4 / 5) then .OK
  else if x < t then .WARNING
  else .CRITICAL

/-- `InfraChecker._evaluate_threshold` of `src/scripts/checker.py`
lines 74–103. -/
def evalThreshold (value : List Char) (threshold : ℚ) (check_id : String) :
    CheckStatus :=
  match extractNumeric value with
  | none => .UNKNOWN
  | some x =>
    if check_id ∈ zeroIsOkSet then classifyZero x
    else classifyThreshold x threshold

/-- `InfraChecker._evaluate_threshold` of `src/checker.py` lines 70–93
(whole-string `float` parse instead of the regex search). -/
def evalThresholdPlain (value : List Char) (threshold : ℚ) (check_id : String) :
    CheckStatus :=
  match extractNumericPlain value with
  | none => .UNKNOWN
  | some x =>
    if check_id ∈ zeroIsOkSet then classifyZero x
    else classifyThreshold x threshold

/-! Message constructors for the human-readable result messages the
orchestrator produces.  Each constructor stands for one message format
string in `checker.py`; payloads record the data interpolated into it. -/

/-- Messages of `run_k8s_checks` and `run_service_checks`
(`src/scripts/checker.py`).  `noTargets` is "점검 대상 없음",
`allNormal`/`someAbnormal`/`manyAbnormal` are the expected-substring
messages, `allResourcesOk`/`someResources`/`manyResources` the
replica-match messages, `inRange`/`near`/`over` the threshold messages,
`metricsParseFailed` is "Metrics 데이터 파싱 실패 (Metrics Server 확인
필요)", `valueUnknown` "값 확인 불가", `metricsServerMissing` "Metrics
Server 미설치", `checkFailed` the stderr-bearing failure message,
`cmdError` "명령 실행 오류", and `okPlain` "정상 확인". -/
inductive Msg where
  | noTargets
  | allNormal (ok total : ℕ)
  | someAbnormal (ok total : ℕ)
  | manyAbnormal (ok total : ℕ)
  | allResourcesOk (n : ℕ)
  | someResources (names : List (List Char))
  | manyResources (n : ℕ)
  | inRange
  | near
  | over
  | metricsParseFailed
  | valueUnknown
  | metricsServerMissing
  | checkFailed
  | cmdError
  | okPlain
deriving DecidableEq, Repr

/-- Candidate lines of the expected-substring evaluation,
`src/scripts/checker.py` line 266: non-empty lines of the stripped output
that are not the literal `N/A`. -/
def ratioLines (text : List Char) : List (List Char) :=
  (splitCh '\n' (pyStrip text)).filter
    (fun l => !l.isEmpty && !(l == "N/A".toList))

/-- Expected-substring (ratio match) evaluation of
`src/scripts/checker.py` lines 265–281 (identical in `src/checker.py`
lines 218–234).  `0.7` is modeled exactly as `7/10`. -/
def ratioEval (text expected : List Char) : CheckStatus × Msg :=
  let lines := ratioLines text
  let okCount := lines.countP (fun l => containsSub expected l)
  let totalCount := lines.length
  if totalCount = 0 then (.UNKNOWN, .noTargets)
  else if okCount = totalCount then (.OK, .allNormal okCount totalCount)
  else if (okCount : ℚ) > (totalCount : ℚ) * (7 / 10) then
    (.WARNING, .someAbnormal okCount totalCount)
  else (.CRITICAL, .manyAbnormal okCount totalCount)

/-- RatioMatchEvaluator as the specification describes it: split into
non-empty lines discarding the not-applicable sentinel, count the lines
containing the marker anywhere, and compare the counts with the fixed
`0.7` cutoff, stated here over natural numbers. -/
def ratioSpec (text expected : List Char) : CheckStatus × Msg :=
  let lines := ratioLines text
  let total := lines.length
  let matching := lines.countP (fun l => containsSub expected l)
  if total = 0 then (.UNKNOWN, .noTargets)
  else if matching = total then (.OK, .allNormal matching total)
  else if 7 * total < 10 * matching then (.WARNING, .someAbnormal matching total)
  else (.CRITICAL, .manyAbnormal matching total)

/-- Candidate lines of the replica-match evaluation,
`src/scripts/checker.py` line 339: non-empty lines containing a colon
that are not the literal `N/A`. -/
def replicaLines (stdout : List Char) : List (List Char) :=
  (splitCh '\n' (pyStrip stdout)).filter
    (fun l => !l.isEmpty && hasChar ':' l && !(l == "N/A".toList))

/-- Issue detection for one replica-match line,
`src/scripts/checker.py` lines 341–352: require a slash, split on colons,
take the last piece as the `available/desired` pair, and report the name
(the piece before the first colon) when the two sides differ as strings;
a pair that does not split into exactly two pieces raises `ValueError` in
the source and is skipped. -/
def lineIssue (l : List Char) : Option (List Char) :=
  if hasChar '/' l then
    let parts := splitCh ':' l
    if 2 ≤ parts.length then
      let reps := parts.getLastD []
      if hasChar '/' reps then
        match splitCh '/' reps with
        | [a, d] => if a ≠ d then some (parts.headD []) else none
        | _ => none
      else none
    else none
  else none

/-- The value normalization of `src/scripts/checker.py` line 334: the
raw output, or `"0"` when it is empty or the literal `N/A`. -/
def replicaValue (stdout : List Char) : List Char :=
  if stdout ≠ [] ∧ stdout ≠ "N/A".toList then stdout else "0".toList

/-- The issue list of the replica-match loop,
`src/scripts/checker.py` lines 340–352. -/
def replicaIssues (stdout : List Char) : List (List Char) :=
  (replicaLines stdout).filterMap lineIssue

/-- Replica-match evaluation of `src/scripts/checker.py` lines 334–365
(identical in `src/checker.py` lines 282–313), starting from the probe's
stdout: the `value` normalization of line 334 is included because line
354 consults it. -/
def replicaEval (stdout : List Char) : CheckStatus × Msg :=
  if (replicaLines stdout).length = 0 ∨ replicaValue stdout = "N/A".toList then
    (.UNKNOWN, .noTargets)
  else if (replicaIssues stdout).length = 0 then
    (.OK, .allResourcesOk (replicaLines stdout).length)
  else if (replicaIssues stdout).length ≤ 2 then
    (.WARNING, .someResources ((replicaIssues stdout).take 3))
  else (.CRITICAL, .manyResources (replicaIssues stdout).length)

/-- Issue detection as the specification describes it: on a candidate
line, split on the colon into the resource name and a trailing
`available/desired` pair; the resource is an issue exactly when the pair
has a single slash and the two sides differ by string comparison;
malformed lines are skipped. -/
def lineIssueSpec (l : List Char) : Option (List Char) :=
  match splitCh '/' ((splitCh ':' l).getLastD []) with
  | [a, d] => if a ≠ d then some ((splitCh ':' l).headD []) else none
  | _ => none

/-- ReplicaMatchEvaluator as the specification describes it: the
not-applicable disjunct of the source's UNKNOWN test is dropped (it is
unreachable) and issues come from `lineIssueSpec`. -/
def replicaSpec (stdout : List Char) : CheckStatus × Msg :=
  if (replicaLines stdout).length = 0 then (.UNKNOWN, .noTargets)
  else if ((replicaLines stdout).filterMap lineIssueSpec).length = 0 then
    (.OK, .allResourcesOk (replicaLines stdout).length)
  else if ((replicaLines stdout).filterMap lineIssueSpec).length ≤ 2 then
    (.WARNING, .someResources (((replicaLines stdout).filterMap lineIssueSpec).take 3))
  else (.CRITICAL, .manyResources ((replicaLines stdout).filterMap lineIssueSpec).length)

/-- Data lines of the `kubectl top nodes` report,
`src/scripts/checker.py` lines 235–239: split the stripped output into
lines and drop the first line when it contains `NAME` or `CPU`. -/
def usageLines (stdout : List Char) : List (List Char) :=
  match splitCh '\n' (pyStrip stdout) with
  | [] => []
  | h :: t =>
    if containsSub ("NAME".toList) h || containsSub ("CPU".toList) h then t
    else h :: t

/-- Percentage of one report row, `src/scripts/checker.py` lines 245–255:
rows with fewer than five whitespace-separated columns are ignored;
column index 2 (CPU, item `K8S-002`) or 4 (memory, item `K8S-003`) has
its `%` characters removed and is parsed with Python `float`; rows whose
column fails to parse are skipped. -/
def rowVal (cpu : Bool) (line : List Char) : Option ℚ :=
  let parts := wordsCh line
  if 5 ≤ parts.length then
    pyFloat ((parts.getD (if cpu then 2 else 4) []).filter (fun c => !(c == '%')))
  else none

/-- One iteration of the resource-usage extraction loop,
`src/scripts/checker.py` lines 250–255: `max_usage = max(max_usage,
float(val_str)); valid_data_found = True`, skipping unparseable rows. -/
def usageStep (cpu : Bool) (acc : ℚ × Bool) (line : List Char) : ℚ × Bool :=
  match rowVal cpu line with
  | some q => (max acc.1 q, true)
  | none => acc

/-- The resource-usage extraction loop of `src/scripts/checker.py` lines
241–257: fold the rows, tracking `max_usage` (initialized to `0.0`) and
the `valid_data_found` flag. -/
def usageScan (stdout : List Char) (cpu : Bool) : ℚ × Bool :=
  (usageLines stdout).foldl (usageStep cpu) (0, false)

/-- The parseable percentages of the report rows, in order — the
"maximum value over all rows" of the specification is the maximum of this
list. -/
def usageRows (stdout : List Char) (cpu : Bool) : List ℚ :=
  (usageLines stdout).filterMap (rowVal cpu)

/-- The observed value carried into threshold evaluation: either the raw
output string, or the number produced by the resource-usage extraction
(the source converts it with `str(max_usage)`; the model keeps the number
and idealizes the print/re-extract round trip, which is exact for the
non-negative decimals the extraction produces). -/
inductive ObsValue where
  | raw (s : List Char)
  | num (q : ℚ)
deriving DecidableEq, Repr

/-- `_evaluate_threshold` applied to the observed value
(`src/scripts/checker.py` line 284). -/
def evalThresholdObs : ObsValue → ℚ → String → CheckStatus
  | .raw s, t, id => evalThreshold s t id
  | .num q, t, id =>
    if id ∈ zeroIsOkSet then classifyZero q else classifyThreshold q t

/-- One Kubernetes check item as the evaluation core sees it: identifier,
optional expected substring, optional threshold
(`config/check_items.yaml` is external configuration). -/
structure K8sItem where
  id : String
  expected : Option (List Char)
  threshold : Option ℚ
deriving DecidableEq, Repr

/-- The error test of `src/scripts/checker.py` line 221:
`"error" in stderr.lower() or (returncode != 0 and not stdout)`. -/
def execFailed (stderr stdout : List Char) (rc : Int) : Prop :=
  containsSub ("error".toList) (lowerCh stderr) = true ∨ (rc ≠ 0 ∧ stdout = [])

instance (stderr stdout : List Char) (rc : Int) :
    Decidable (execFailed stderr stdout rc) := by
  unfold execFailed; infer_instance

/-- The raw observed value of a Kubernetes item, `src/scripts/checker.py`
line 230: the output, or the "데이터 없음" placeholder when it is empty
or the literal `N/A`. -/
def k8sBaseValue (out : List Char) : List Char :=
  if out ≠ [] ∧ out ≠ "N/A".toList then out else "데이터 없음".toList

/-- The observed value of a Kubernetes item,
`src/scripts/checker.py` lines 230–260: the raw output (through
`k8sBaseValue`), replaced for items `K8S-002`/`K8S-003` by the maximum
usage percentage when the report parse found valid data. -/
def k8sObserved (id : String) (out : List Char) : ObsValue :=
  if id = "K8S-002" ∨ id = "K8S-003" then
    if (usageScan out (id = "K8S-002")).2 then
      .num (usageScan out (id = "K8S-002")).1
    else .raw (k8sBaseValue out)
  else .raw (k8sBaseValue out)

/-- The `K8S-008` normalization of `src/scripts/checker.py` lines
216–219: when the grep-style probe exits non-zero with empty output, the
result becomes a synthetic successful `"0"`. -/
def k8sNorm (id : String) (stdout : List Char) (rc : Int) : List Char × Int :=
  if id = "K8S-008" ∧ rc ≠ 0 ∧ stdout = [] then ("0".toList, 0)
  else (stdout, rc)

/-- The threshold-route message selection of `src/scripts/checker.py`
lines 285–296, with the `K8S-002`/`K8S-003` override of the generic
unknown-value message. -/
def k8sThresholdMsg (st : CheckStatus) (id : String) : Msg :=
  if st = .OK then .inRange
  else if st = .WARNING then .near
  else if st = .CRITICAL then .over
  else if id = "K8S-002" ∨ id = "K8S-003" then .metricsParseFailed
  else .valueUnknown

/-- The per-item Kubernetes evaluation of `src/scripts/checker.py` lines
214–299, given the probe's stdout, stderr and exit code: the `K8S-008`
normalization, the execution-failure test with its metrics-API override,
then the expected-substring, threshold, or trivially-OK routes. -/
def k8sCheck (item : K8sItem) (stdout stderr : List Char) (rc : Int) :
    CheckStatus × Msg :=
  if execFailed stderr (k8sNorm item.id stdout rc).1 (k8sNorm item.id stdout rc).2 then
    if containsSub ("metrics api not available".toList) (lowerCh stderr) then
      (.UNKNOWN, .metricsServerMissing)
    else if stderr ≠ [] then (.UNKNOWN, .checkFailed)
    else (.UNKNOWN, .cmdError)
  else
    if (item.expected.getD []) ≠ [] then
      ratioEval (k8sNorm item.id stdout rc).1 (item.expected.getD [])
    else
      match item.threshold with
      | some t =>
        (evalThresholdObs (k8sObserved item.id (k8sNorm item.id stdout rc).1) t item.id,
          k8sThresholdMsg
            (evalThresholdObs (k8sObserved item.id (k8sNorm item.id stdout rc).1) t item.id)
            item.id)
      | none => (.OK, .okPlain)

/-- The value and raw-output pair stored on an emitted CheckResult. -/
structure Emitted where
  value : List Char
  rawOutput : List Char
deriving DecidableEq, Repr

/-- CheckResult emission of `run_os_checks`, `src/scripts/checker.py`
lines 187–198: `value=value, raw_output=value`, no truncation. -/
def osEmit (value : List Char) : Emitted :=
  ⟨value, value⟩

/-- CheckResult emission of `run_k8s_checks`, `src/scripts/checker.py`
lines 301–312: `value[:300] if value else "N/A"` and
`stdout[:500] if stdout else ""`. -/
def k8sEmit (value stdout : List Char) : Emitted :=
  ⟨if value ≠ [] then value.take 300 else "N/A".toList,
   if stdout ≠ [] then stdout.take 500 else []⟩

/-- CheckResult emission of `run_service_checks`,
`src/scripts/checker.py` lines 379–390: `value[:300] if value else "N/A"`
and `value[:500] if value else ""`. -/
def svcEmit (value : List Char) : Emitted :=
  ⟨if value ≠ [] then value.take 300 else "N/A".toList,
   if value ≠ [] then value.take 500 else []⟩

/-- The value normalization of `run_service_checks`,
`src/scripts/checker.py` line 334: the raw output, or `"0"` when it is
empty or the literal `N/A`. -/
def svcValue (stdout : List Char) : List Char :=
  if stdout ≠ [] ∧ stdout ≠ "N/A".toList then stdout else "0".toList

/-- The threshold route of `run_service_checks`,
`src/scripts/checker.py` lines 367–368 and 379–390: the status is
computed from the untruncated stdout while the emitted value is the
truncated normalization. -/
def svcThresholdCheck (stdout : List Char) (t : ℚ) (id : String) :
    CheckStatus × Emitted :=
  (evalThreshold stdout t id, svcEmit (svcValue stdout))

/-- One result row as the aggregator sees it: category and status. -/
structure ResultRow where
  category : String
  status : CheckStatus
deriving DecidableEq, Repr

/-- Per-category status counters of the summary. -/
structure CatCounts where
  ok : ℕ
  warning : ℕ
  critical : ℕ
  unknown : ℕ
deriving DecidableEq, Repr

/-- The all-zero counter group each category starts from. -/
def CatCounts.zero : CatCounts :=
  ⟨0, 0, 0, 0⟩

/-- Four-way total of a counter group. -/
def CatCounts.total (c : CatCounts) : ℕ :=
  c.ok + c.warning + c.critical + c.unknown

/-- One increment step of the aggregation loop,
`src/scripts/checker.py` lines 420–427. -/
def CatCounts.bump (c : CatCounts) : CheckStatus → CatCounts
  | .OK => ⟨c.ok + 1, c.warning, c.critical, c.unknown⟩
  | .WARNING => ⟨c.ok, c.warning + 1, c.critical, c.unknown⟩
  | .CRITICAL => ⟨c.ok, c.warning, c.critical + 1, c.unknown⟩
  | .UNKNOWN => ⟨c.ok, c.warning, c.critical, c.unknown + 1⟩

/-- The three category keys of the summary's `by_category` dictionary. -/
def catKeys : List String :=
  ["OS", "Kubernetes", "Services"]

/-- The initial `by_category` dictionary of `src/scripts/checker.py`
lines 410–414, with every counter present and zero. -/
def initByCategory : List (String × CatCounts) :=
  [("OS", .zero), ("Kubernetes", .zero), ("Services", .zero)]

/-- One loop iteration of `src/scripts/checker.py` lines 417–427: when
the row's category is a key of the dictionary, bump that entry's counter
for the row's status (the keys are distinct, so updating every matching
entry is the dictionary update). -/
def bumpCategory (m : List (String × CatCounts)) (cat : String)
    (st : CheckStatus) : List (String × CatCounts) :=
  m.map (fun p => if p.1 = cat then (p.1, p.2.bump st) else p)

/-- The generated summary: total, overall per-status counts, and the
per-category counter dictionary (modeled as an association list to keep
key presence observable). -/
structure Summary where
  total : ℕ
  ok : ℕ
  warning : ℕ
  critical : ℕ
  unknown : ℕ
  byCategory : List (String × CatCounts)
deriving DecidableEq, Repr

/-- `InfraChecker.get_summary` of `src/scripts/checker.py` lines 400–429:
the empty result list yields an empty dictionary (modeled as `none`);
otherwise the overall counts and the folded per-category counters. -/
def getSummary (rs : List ResultRow) : Option Summary :=
  if rs = [] then none
  else
    some
      { total := rs.length
        ok := rs.countP (fun r => r.status == CheckStatus.OK)
        warning := rs.countP (fun r => r.status == CheckStatus.WARNING)
        critical := rs.countP (fun r => r.status == CheckStatus.CRITICAL)
        unknown := rs.countP (fun r => r.status == CheckStatus.UNKNOWN)
        byCategory :=
          rs.foldl (fun m r => bumpCategory m r.category r.status) initByCategory }

/-- Componentwise sum of two counter groups (specification side). -/
def CatCounts.add (a b : CatCounts) : CatCounts :=
  ⟨a.ok + b.ok, a.warning + b.warning, a.critical + b.critical,
    a.unknown + b.unknown⟩

/-- The counter group a category accumulates over a result list,
stated directly through per-status counts (specification side). -/
def countsFor (c : String) (rs : List ResultRow) : CatCounts :=
  ⟨rs.countP (fun r => r.category == c && r.status == CheckStatus.OK),
    rs.countP (fun r => r.category == c && r.status == CheckStatus.WARNING),
    rs.countP (fun r => r.category == c && r.status == CheckStatus.CRITICAL),
    rs.countP (fun r => r.category == c && r.status == CheckStatus.UNKNOWN)⟩

/-- A concrete two-category result list used to instantiate the summary
invariants. -/
def demoRows : List ResultRow :=
  [⟨"OS", .OK⟩, ⟨"Services", .CRITICAL⟩]

/-- The summary of `demoRows`. -/
def demoSummary : Summary :=
  { total := 2, ok := 1, warning := 0, critical := 1, unknown := 0
    byCategory := [("OS", ⟨1, 0, 0, 0⟩), ("Kubernetes", CatCounts.zero),
      ("Services", ⟨0, 0, 1, 0⟩)] }

/-- A concrete one-category result list used to instantiate the
initialized-counters property. -/
def demoRowsOne : List ResultRow :=
  [⟨"OS", .OK⟩]

/-- The summary of `demoRowsOne`. -/
def demoSummaryOne : Summary :=
  { total := 1, ok := 1, warning := 0, critical := 0, unknown := 0
    byCategory := [("OS", ⟨1, 0, 0, 0⟩), ("Kubernetes", CatCounts.zero),
      ("Services", CatCounts.zero)] }

/-! Helper lemmas. -/

/-- Unfolding lemma: extraction failure propagates (scripts copy). -/
theorem evalThreshold_none {v : List Char} (t : ℚ) (id : String)
    (h : extractNumeric v = none) : evalThreshold v t id = .UNKNOWN := by
  rw [evalThreshold, h]

/-- Unfolding lemma: a successful extraction is classified (scripts copy). -/
theorem evalThreshold_some {v : List Char} {x : ℚ} (t : ℚ) (id : String)
    (h : extractNumeric v = some x) :
    evalThreshold v t id =
      if id ∈ zeroIsOkSet then classifyZero x else classifyThreshold x t := by
  rw [evalThreshold, h]

/-- Unfolding lemma: extraction failure propagates (plain copy). -/
theorem evalThresholdPlain_none {v : List Char} (t : ℚ) (id : String)
    (h : extractNumericPlain v = none) : evalThresholdPlain v t id = .UNKNOWN := by
  rw [evalThresholdPlain, h]

/-- Unfolding lemma: a successful extraction is classified (plain copy). -/
theorem evalThresholdPlain_some {v : List Char} {x : ℚ} (t : ℚ) (id : String)
    (h : extractNumericPlain v = some x) :
    evalThresholdPlain v t id =
      if id ∈ zeroIsOkSet then classifyZero x else classifyThreshold x t := by
  rw [evalThresholdPlain, h]

/-- Evaluation helper: the scripts-copy extraction through the digit runs
found by the regex scan. -/
theorem extractNumeric_eq_parts {v ds fs : List Char}
    (h : firstNumParts (cleanValue v) = some (ds, fs)) :
    extractNumeric v = some (decValue ds fs) := by
  rw [extractNumeric, firstNum, h, Option.map_some']

/-- Evaluation helper: the scripts-copy extraction fails exactly when the
regex scan finds no digit run. -/
theorem extractNumeric_eq_none {v : List Char}
    (h : firstNumParts (cleanValue v) = none) : extractNumeric v = none := by
  rw [extractNumeric, firstNum, h, Option.map_none']

/-- Evaluation helper: the plain-copy extraction through a parsed float
literal. -/
theorem extractNumericPlain_eq_parts {v : List Char} {p : FloatParts}
    (h : pyFloatParts (cleanValue v) = some p) :
    extractNumericPlain v = some p.val := by
  rw [extractNumericPlain, pyFloat, h, Option.map_some']

/-- Evaluation helper: plain-copy extraction failure. -/
theorem extractNumericPlain_eq_none {v : List Char}
    (h : pyFloatParts (cleanValue v) = none) : extractNumericPlain v = none := by
  rw [extractNumericPlain, pyFloat, h, Option.map_none']

/-- Evaluation helper: digit-run values as plain numerals. -/
theorem decValue_eval {ds fs : List Char} {a b n : ℕ}
    (h1 : digitsVal ds = a) (h2 : digitsVal fs = b) (h3 : fs.length = n) :
    decValue ds fs = (a : ℚ) + (b : ℚ) / 10 ^ n := by
  subst h1; subst h2; subst h3; rfl

/-- The zero-is-healthy classifier at zero. -/
theorem classifyZero_at_zero {x : ℚ} (h : x = 0) : classifyZero x = .OK := by
  rw [classifyZero, if_pos h]

/-- The zero-is-healthy classifier on small positive values. -/
theorem classifyZero_small {x : ℚ} (h0 : 0 < x) (h3 : x ≤ 3) :
    classifyZero x = .WARNING := by
  rw [classifyZero, if_neg (ne_of_gt h0), if_pos h3]

/-- The zero-is-healthy classifier above the tolerance. -/
theorem classifyZero_large {x : ℚ} (h : 3 < x) : classifyZero x = .CRITICAL := by
  rw [classifyZero, if_neg (by positivity : x ≠ 0), if_neg (not_le.mpr h)]

/-- The threshold classifier below the `0.8` margin. -/
theorem classifyThreshold_low {x t : ℚ} (h : x < t * (4 / 5)) :
    classifyThreshold x t = .OK := by
  rw [classifyThreshold, if_pos h]

/-- The threshold classifier in the warning band. -/
theorem classifyThreshold_mid {x t : ℚ} (h1 : t * (4 / 5) ≤ x) (h2 : x < t) :
    classifyThreshold x t = .WARNING := by
  rw [classifyThreshold, if_neg (not_lt.mpr h1), if_pos h2]

/-- The threshold classifier at or above the threshold, for a
non-negative value (for a negative threshold and a negative value the
first branch can fire instead — see the C1 counterexample). -/
theorem classifyThreshold_high {x t : ℚ} (h : t ≤ x) (hx : 0 ≤ x) :
    classifyThreshold x t = .CRITICAL := by
  rw [classifyThreshold, if_neg (not_lt.mpr (by linarith)), if_neg (not_lt.mpr h)]

/-- The zero-is-healthy classifier never yields UNKNOWN. -/
theorem classifyZero_ne_unknown (x : ℚ) : classifyZero x ≠ .UNKNOWN := by
  unfold classifyZero; split_ifs <;> simp

/-- The threshold classifier never yields UNKNOWN. -/
theorem classifyThreshold_ne_unknown (x t : ℚ) : classifyThreshold x t ≠ .UNKNOWN := by
  unfold classifyThreshold; split_ifs <;> simp

/-- Digit-run values are non-negative. -/
theorem decValue_nonneg (ds fs : List Char) : 0 ≤ decValue ds fs := by
  unfold decValue fracVal; positivity

/-- The regex-based extraction of the scripts copy only produces
non-negative values (the pattern has no sign). -/
theorem extractNumeric_nonneg {v : List Char} {x : ℚ}
    (h : extractNumeric v = some x) : 0 ≤ x := by
  rw [extractNumeric, firstNum] at h
  cases hp : firstNumParts (cleanValue v) with
  | none => rw [hp] at h; simp at h
  | some p =>
    rw [hp, Option.map_some', Option.some_inj] at h
    exact h ▸ decValue_nonneg p.1 p.2

/-- Append law for takeWhile when the first part satisfies the predicate
throughout. -/
theorem takeWhile_append_all (p : Char → Bool) (l1 l2 : List Char)
    (h : ∀ a ∈ l1, p a = true) :
    (l1 ++ l2).takeWhile p = l1 ++ l2.takeWhile p := by
  induction l1 with
  | nil => simp
  | cons c r ih =>
    simp only [List.cons_append, List.takeWhile_cons, h c (by simp), ih
      (fun a ha => h a (by simp [ha]))]
    simp

/-- Append law for dropWhile when the first part satisfies the predicate
throughout. -/
theorem dropWhile_append_all (p : Char → Bool) (l1 l2 : List Char)
    (h : ∀ a ∈ l1, p a = true) :
    (l1 ++ l2).dropWhile p = l2.dropWhile p := by
  induction l1 with
  | nil => simp
  | cons c r ih =>
    simp only [List.cons_append, List.dropWhile_cons, h c (by simp), if_true]
    exact ih (fun a ha => h a (by simp [ha]))

/-- The regex scan skips any digit-free prefix. -/
theorem firstNumParts_append_nodigit (q l : List Char)
    (h : ∀ c ∈ q, c.isDigit = false) :
    firstNumParts (q ++ l) = firstNumParts l := by
  induction q with
  | nil => simp
  | cons c r ih =>
    have hc : c.isDigit = false := h c (by simp)
    simp only [List.cons_append, firstNumParts, hc, Bool.false_eq_true, if_false]
    exact ih (fun a ha => h a (by simp [ha]))

/-- The regex scan on a bare digit run matches the whole run with no
fraction. -/
theorem firstNumParts_digits (whole : List Char) (hw : whole ≠ [])
    (hwd : ∀ c ∈ whole, c.isDigit = true) :
    firstNumParts whole = some (whole, []) := by
  obtain ⟨c, w, rfl⟩ := List.exists_cons_of_ne_nil hw
  have hc : c.isDigit = true := hwd c (by simp)
  have htw : (c :: w).takeWhile Char.isDigit = c :: w := by
    have h := takeWhile_append_all Char.isDigit (c :: w) [] hwd
    simpa using h
  have hdw : (c :: w).dropWhile Char.isDigit = [] := by
    have h := dropWhile_append_all Char.isDigit (c :: w) [] hwd
    simpa using h
  simp [firstNumParts, hc, htw, hdw]

/-- The regex scan on a digit run, a decimal point and a second digit run
matches both runs. -/
theorem firstNumParts_digits_frac (whole frac : List Char) (hw : whole ≠ [])
    (hwd : ∀ c ∈ whole, c.isDigit = true) (hf : frac ≠ [])
    (hfd : ∀ c ∈ frac, c.isDigit = true) :
    firstNumParts (whole ++ '.' :: frac) = some (whole, frac) := by
  obtain ⟨c, w, rfl⟩ := List.exists_cons_of_ne_nil hw
  have hc : c.isDigit = true := hwd c (by simp)
  have htw : ((c :: w) ++ '.' :: frac).takeWhile Char.isDigit = c :: w := by
    rw [takeWhile_append_all Char.isDigit (c :: w) ('.' :: frac) hwd]
    simp [List.takeWhile_cons]
  have hdw : ((c :: w) ++ '.' :: frac).dropWhile Char.isDigit = '.' :: frac := by
    rw [dropWhile_append_all Char.isDigit (c :: w) ('.' :: frac) hwd]
    simp [List.dropWhile_cons]
  have hfs : frac.takeWhile Char.isDigit = frac := by
    have h := takeWhile_append_all Char.isDigit frac [] hfd
    simpa using h
  have hgoal : firstNumParts (c :: (w ++ '.' :: frac)) =
      some (c :: w, frac) := by
    simp only [firstNumParts]
    rw [if_pos hc, show c :: (w ++ '.' :: frac) = (c :: w) ++ '.' :: frac from rfl,
      htw, hdw]
    simp [hfs, hf]
  simpa using hgoal

/-! Claim theorems. -/

/-- C1 (counterexample): the claim fails as stated on the plain copy of
the evaluator, which can extract a negative value: for input `-9` and
threshold `-10` the extracted value `-9` is at or above the threshold, so
the claim requires CRITICAL, but the evaluator returns OK because
`-9 < 0.8 * (-10)` fires the first branch. -/
theorem claim1_cex :
    extractNumericPlain ("-9".toList) = some (-9) ∧
    ((-10 : ℚ) ≤ -9) ∧
    evalThresholdPlain ("-9".toList) (-10) "OS-001" = CheckStatus.OK ∧
    "OS-001" ∉ zeroIsOkSet := by
  have hparts : pyFloatParts (cleanValue ("-9".toList)) =
      some ⟨true, ['9'], [], false, []⟩ := by decide
  have hval : (FloatParts.mk true ['9'] [] false []).val = -9 := by
    rw [FloatParts.val,
      decValue_eval (show digitsVal ['9'] = 9 by decide)
        (show digitsVal [] = 0 by decide) rfl]
    norm_num [digitsVal]
  have hx : extractNumericPlain ("-9".toList) = some (-9) := by
    rw [extractNumericPlain_eq_parts hparts, hval]
  refine ⟨hx, by norm_num, ?_, by decide⟩
  rw [evalThresholdPlain_some (-10) "OS-001" hx, if_neg (by decide)]
  exact classifyThreshold_low (by norm_num)

/-- C1 (amended): for both evaluator copies, an extracted value is
classified by the claimed bands — the zero-is-ok identifiers by
`0 → OK`, `(0,3] → WARNING`, `(3,∞) → CRITICAL` independent of the
threshold, the others by `(-∞, 0.8T) → OK`, `[0.8T, T) → WARNING`,
`[T, ∞) → CRITICAL`; for the plain copy the last band additionally
requires the extracted value to be non-negative (the regex copy can only
extract non-negative values, so there it holds unconditionally). -/
theorem claim1_threshold_bands (v : List Char) (t : ℚ) (id : String) (x : ℚ) :
    (extractNumeric v = some x →
      ((id ∈ zeroIsOkSet →
          (x = 0 → evalThreshold v t id = .OK) ∧
          (0 < x → x ≤ 3 → evalThreshold v t id = .WARNING) ∧
          (3 < x → evalThreshold v t id = .CRITICAL)) ∧
        (id ∉ zeroIsOkSet →
          (x < t * (4 / 5) → evalThreshold v t id = .OK) ∧
          (t * (4 / 5) ≤ x → x < t → evalThreshold v t id = .WARNING) ∧
          (t ≤ x → evalThreshold v t id = .CRITICAL)))) ∧
    (extractNumericPlain v = some x →
      ((id ∈ zeroIsOkSet →
          (x = 0 → evalThresholdPlain v t id = .OK) ∧
          (0 < x → x ≤ 3 → evalThresholdPlain v t id = .WARNING) ∧
          (3 < x → evalThresholdPlain v t id = .CRITICAL)) ∧
        (id ∉ zeroIsOkSet →
          (x < t * (4 / 5) → evalThresholdPlain v t id = .OK) ∧
          (t * (4 / 5) ≤ x → x < t → evalThresholdPlain v t id = .WARNING) ∧
          (0 ≤ x → t ≤ x → evalThresholdPlain v t id = .CRITICAL)))) := by
  constructor
  · intro h
    have hx : 0 ≤ x := extractNumeric_nonneg h
    rw [evalThreshold_some t id h]
    refine ⟨fun hm => ?_, fun hm => ?_⟩
    · rw [if_pos hm]
      exact ⟨fun h0 => classifyZero_at_zero h0,
        fun h0 h3 => classifyZero_small h0 h3,
        fun h3 => classifyZero_large h3⟩
    · rw [if_neg hm]
      exact ⟨fun hlt => classifyThreshold_low hlt,
        fun h1 h2 => classifyThreshold_mid h1 h2,
        fun hge => classifyThreshold_high hge hx⟩
  · intro h
    rw [evalThresholdPlain_some t id h]
    refine ⟨fun hm => ?_, fun hm => ?_⟩
    · rw [if_pos hm]
      exact ⟨fun h0 => classifyZero_at_zero h0,
        fun h0 h3 => classifyZero_small h0 h3,
        fun h3 => classifyZero_large h3⟩
    · rw [if_neg hm]
      exact ⟨fun hlt => classifyThreshold_low hlt,
        fun h1 h2 => classifyThreshold_mid h1 h2,
        fun hx hge => classifyThreshold_high hge hx⟩

/-- C1 (witness): the value 70 against threshold 80 for a monotonic item
lands in the warning band, as the spec's example requires. -/
theorem claim1_witness :
    evalThreshold ("70".toList) 80 "OS-001" = CheckStatus.WARNING := by
  have hx : extractNumeric ("70".toList) = some 70 := by
    rw [extractNumeric_eq_parts
      (show firstNumParts (cleanValue ("70".toList)) = some (['7', '0'], []) by decide)]
    rw [decValue_eval (show digitsVal ['7', '0'] = 70 by decide)
      (show digitsVal [] = 0 by decide) rfl]
    norm_num
  exact (((claim1_threshold_bands ("70".toList) 80 "OS-001" 70).1 hx).2
    (by decide)).2.1 (by norm_num) (by norm_num)

/-- C2 (counterexample): the claim fails as stated on the plain copy of
the evaluator, `src/checker.py`: for the log-style input
`"load average: 1.25"` its whole-string float parse signals
no-numeric-value and classifies UNKNOWN, while the scripts copy's regex
extraction succeeds. -/
theorem claim2_cex :
    extractNumericPlain ("load average: 1.25".toList) = none ∧
    evalThresholdPlain ("load average: 1.25".toList) 4 "OS-006" =
      CheckStatus.UNKNOWN ∧
    extractNumeric ("load average: 1.25".toList) ≠ none := by
  have hn : pyFloatParts (cleanValue ("load average: 1.25".toList)) = none := by
    decide
  refine ⟨extractNumericPlain_eq_none hn,
    evalThresholdPlain_none 4 "OS-006" (extractNumericPlain_eq_none hn), ?_⟩
  rw [extractNumeric_eq_parts
    (show firstNumParts (cleanValue ("load average: 1.25".toList)) =
      some (['1'], ['2', '5']) by decide)]
  simp

/-- C2 (amended): in the scripts copy, extraction strips the unit
decorations and returns the first digit run with its optional single
fractional run; in particular any cleaned input of digit-free prose
followed by a number extracts that number, and a successful extraction is
never classified UNKNOWN.  The plain copy instead parses the entire
cleaned string as one float literal and classifies UNKNOWN whenever that
parse fails. -/
theorem claim2_prose_extraction (v p whole frac : List Char)
    (hp : ∀ c ∈ p, c.isDigit = false)
    (hw : whole ≠ []) (hwd : ∀ c ∈ whole, c.isDigit = true) :
    (cleanValue v = p ++ whole → extractNumeric v = some (decValue whole [])) ∧
    (frac ≠ [] → (∀ c ∈ frac, c.isDigit = true) →
      cleanValue v = p ++ (whole ++ '.' :: frac) →
      extractNumeric v = some (decValue whole frac)) ∧
    (∀ t id x, extractNumeric v = some x →
      evalThreshold v t id ≠ CheckStatus.UNKNOWN) ∧
    (∀ t id, pyFloatParts (cleanValue v) = none →
      evalThresholdPlain v t id = CheckStatus.UNKNOWN) := by
  refine ⟨?_, ?_, ?_, ?_⟩
  · intro hv
    rw [extractNumeric, firstNum, hv, firstNumParts_append_nodigit p whole hp,
      firstNumParts_digits whole hw hwd, Option.map_some']
  · intro hf hfd hv
    rw [extractNumeric, firstNum, hv,
      firstNumParts_append_nodigit p (whole ++ '.' :: frac) hp,
      firstNumParts_digits_frac whole frac hw hwd hf hfd, Option.map_some']
  · intro t id x hx
    rw [evalThreshold_some t id hx]
    split_ifs
    · exact classifyZero_ne_unknown x
    · exact classifyThreshold_ne_unknown x t
  · intro t id hnone
    exact evalThresholdPlain_none t id (extractNumericPlain_eq_none hnone)

/-- C2 (witness): the scripts copy extracts `1.25` from the log-style
input `"load average: 1.25"` and does not classify it UNKNOWN. -/
theorem claim2_witness :
    extractNumeric ("load average: 1.25".toList) = some (5 / 4) ∧
    evalThreshold ("load average: 1.25".toList) 4 "OS-006" ≠
      CheckStatus.UNKNOWN := by
  have h := claim2_prose_extraction ("load average: 1.25".toList)
    ("load average: ".toList) ['1'] ['2', '5'] (by decide) (by decide) (by decide)
  have hx := h.2.1 (by decide) (by decide) (by decide)
  have hval : decValue ['1'] ['2', '5'] = 5 / 4 := by
    rw [decValue_eval (show digitsVal ['1'] = 1 by decide)
      (show digitsVal ['2', '5'] = 25 by decide) rfl]
    norm_num
  exact ⟨hval ▸ hx, h.2.2.1 4 "OS-006" (decValue ['1'] ['2', '5']) hx⟩

/-- C10: both evaluator copies are total — every input string, threshold
and identifier yields exactly one of the four statuses, extraction
failure is mapped to UNKNOWN, and for the zero-is-ok identifiers the
result does not depend on the threshold argument. -/
theorem claim10_totality (v : List Char) (t t1 t2 : ℚ) (id : String) :
    (evalThreshold v t id = .OK ∨ evalThreshold v t id = .WARNING ∨
      evalThreshold v t id = .CRITICAL ∨ evalThreshold v t id = .UNKNOWN) ∧
    (evalThresholdPlain v t id = .OK ∨ evalThresholdPlain v t id = .WARNING ∨
      evalThresholdPlain v t id = .CRITICAL ∨
      evalThresholdPlain v t id = .UNKNOWN) ∧
    (extractNumeric v = none → evalThreshold v t id = .UNKNOWN) ∧
    (extractNumericPlain v = none → evalThresholdPlain v t id = .UNKNOWN) ∧
    (id ∈ zeroIsOkSet →
      evalThreshold v t1 id = evalThreshold v t2 id ∧
      evalThresholdPlain v t1 id = evalThresholdPlain v t2 id) := by
  refine ⟨?_, ?_, evalThreshold_none t id, evalThresholdPlain_none t id,
    fun hm => ⟨?_, ?_⟩⟩
  · cases evalThreshold v t id <;> simp
  · cases evalThresholdPlain v t id <;> simp
  · unfold evalThreshold; cases extractNumeric v <;> simp [hm]
  · unfold evalThresholdPlain; cases extractNumericPlain v <;> simp [hm]

/-- C10 (witness): a non-numeric input is UNKNOWN, and a zero-is-ok
identifier classifies identically under two different thresholds. -/
theorem claim10_witness :
    evalThreshold ("n/a".toList) 5 "OS-001" = CheckStatus.UNKNOWN ∧
    evalThreshold ("2".toList) 1 "OS-005" = evalThreshold ("2".toList) 9 "OS-005" := by
  refine ⟨(claim10_totality ("n/a".toList) 5 0 0 "OS-001").2.2.1
    (extractNumeric_eq_none (by decide)),
    ((claim10_totality ("2".toList) 0 1 9 "OS-005").2.2.2.2 (by decide)).1⟩

/-- Python split never returns an empty list of pieces. -/
theorem splitCh_ne_nil (sep : Char) (l : List Char) : splitCh sep l ≠ [] := by
  induction l with
  | nil => simp [splitCh]
  | cons c r ih =>
    simp only [splitCh]
    cases h : splitCh sep r with
    | nil => exact absurd h ih
    | cons a t => split_ifs <;> simp

/-- Unfolding law for `splitCh` on a cons cell, given the split of the
tail. -/
theorem splitCh_cons_eq (sep c : Char) (r : List Char) (a : List Char)
    (t : List (List Char)) (hs : splitCh sep r = a :: t) :
    splitCh sep (c :: r) =
      if c = sep then [] :: a :: t else (c :: a) :: t := by
  rw [show splitCh sep (c :: r) =
      (match splitCh sep r with
        | [] => [[]]
        | h :: t => if c = sep then [] :: h :: t else (c :: h) :: t) from rfl,
    hs]

/-- A string containing the separator splits into at least two pieces. -/
theorem two_le_length_splitCh (sep : Char) (l : List Char)
    (h : hasChar sep l = true) : 2 ≤ (splitCh sep l).length := by
  induction l with
  | nil => simp [hasChar] at h
  | cons c r ih =>
    cases hs : splitCh sep r with
    | nil => exact absurd hs (splitCh_ne_nil sep r)
    | cons a t =>
      rw [splitCh_cons_eq sep c r a t hs]
      by_cases hc : c = sep
      · rw [if_pos hc]; simp
      · rw [if_neg hc]
        have hr : hasChar sep r = true := by
          simp only [hasChar, List.any_cons] at h
          rcases Bool.or_eq_true_iff.mp h with h1 | h1
          · exact absurd (by simpa using h1) hc
          · exact h1
        have h2 := ih hr
        rw [hs] at h2
        simpa using h2

/-- Every character of a split piece occurs in the original string. -/
theorem mem_of_mem_splitCh (sep : Char) (l part : List Char)
    (hp : part ∈ splitCh sep l) {c : Char} (hc : c ∈ part) : c ∈ l := by
  induction l generalizing part with
  | nil =>
    simp [splitCh] at hp
    subst hp; simp at hc
  | cons a r ih =>
    cases hs : splitCh sep r with
    | nil => exact absurd hs (splitCh_ne_nil sep r)
    | cons h t =>
      rw [splitCh_cons_eq sep a r h t hs] at hp
      by_cases hc' : a = sep
      · rw [if_pos hc'] at hp
        rcases List.mem_cons.mp hp with rfl | hp2
        · simp at hc
        · exact List.mem_cons_of_mem a (ih part (hs ▸ hp2) hc)
      · rw [if_neg hc'] at hp
        rcases List.mem_cons.mp hp with rfl | hp2
        · rcases List.mem_cons.mp hc with rfl | hc2
          · exact List.mem_cons_self c r
          · exact List.mem_cons_of_mem a
              (ih h (hs ▸ List.mem_cons_self h t) hc2)
        · exact List.mem_cons_of_mem a
            (ih part (hs ▸ List.mem_cons_of_mem h hp2) hc)

/-- A string without the separator splits into itself alone. -/
theorem splitCh_no_sep (sep : Char) (l : List Char)
    (h : hasChar sep l = false) : splitCh sep l = [l] := by
  induction l with
  | nil => rfl
  | cons c r ih =>
    have hc : ¬(c = sep) := by
      intro hcc
      simp [hasChar, hcc] at h
    have hr : hasChar sep r = false := by
      simp only [hasChar, List.any_cons, Bool.or_eq_false_iff] at h
      exact h.2
    simp only [splitCh, ih hr, if_neg hc]

/-- The default last element of a non-empty list is a member. -/
theorem getLastD_mem {α : Type} (xs : List α) (d : α) (h : xs ≠ []) :
    xs.getLastD d ∈ xs := by
  rw [List.getLastD_eq_getLast?, List.getLast?_eq_getLast xs h]
  exact List.getLast_mem h

/-- On a candidate line (one that contains a colon), the source's issue
detection agrees with the specification's description of it. -/
theorem lineIssue_eq_spec (l : List Char) (hl : hasChar ':' l = true) :
    lineIssue l = lineIssueSpec l := by
  unfold lineIssue lineIssueSpec
  have hparts := two_le_length_splitCh ':' l hl
  by_cases hs : hasChar '/' l = true
  · rw [if_pos hs, if_pos hparts]
    by_cases hr : hasChar '/' ((splitCh ':' l).getLastD []) = true
    · rw [if_pos hr]
    · rw [if_neg hr,
        splitCh_no_sep '/' _ (Bool.not_eq_true _ ▸ hr)]
  · rw [if_neg hs]
    have hr : hasChar '/' ((splitCh ':' l).getLastD []) = false := by
      by_contra hcon
      rw [Bool.not_eq_false] at hcon
      obtain ⟨c, hcm, hceq⟩ := List.any_eq_true.mp hcon
      have hcl : c ∈ l := mem_of_mem_splitCh ':' l _
        (getLastD_mem _ [] (splitCh_ne_nil ':' l)) hcm
      exact hs (List.any_eq_true.mpr ⟨c, hcl, hceq⟩)
    rw [splitCh_no_sep '/' _ hr]

/-- C3: the expected-substring (ratio match) evaluation agrees with the
specification's description — classify by the count of lines containing
the marker against the total over natural numbers — and on the spec's
worked examples 10, 8, 6 matches of 10 lines are OK, WARNING, CRITICAL,
and no lines is UNKNOWN with the no-targets message. -/
theorem claim3_ratio_match :
    (∀ text expected, ratioEval text expected = ratioSpec text expected) ∧
    ratioEval
      (("s1:Running\ns2:Running\ns3:Running\ns4:Running\ns5:Running\n" ++
        "s6:Running\ns7:Running\ns8:Running\ns9:Running\ns10:Running").toList)
      ("Running".toList) = (CheckStatus.OK, Msg.allNormal 10 10) ∧
    ratioEval
      (("s1:Running\ns2:Running\ns3:Running\ns4:Running\ns5:Running\n" ++
        "s6:Running\ns7:Running\ns8:Running\ns9:Failed\ns10:Failed").toList)
      ("Running".toList) = (CheckStatus.WARNING, Msg.someAbnormal 8 10) ∧
    ratioEval
      (("s1:Running\ns2:Running\ns3:Running\ns4:Running\ns5:Running\n" ++
        "s6:Running\ns7:Failed\ns8:Failed\ns9:Failed\ns10:Failed").toList)
      ("Running".toList) = (CheckStatus.CRITICAL, Msg.manyAbnormal 6 10) ∧
    ratioEval ("".toList) ("Running".toList) =
      (CheckStatus.UNKNOWN, Msg.noTargets) := by
  have hiff : ∀ m t : ℕ, ((m : ℚ) > (t : ℚ) * (7 / 10)) ↔ 7 * t < 10 * m := by
    intro m t
    rw [gt_iff_lt]
    constructor
    · intro h
      have h10 : (7 * t : ℚ) < 10 * m := by linarith
      exact_mod_cast h10
    · intro h
      have h10 : (7 * t : ℚ) < 10 * m := by exact_mod_cast h
      linarith
  have heq : ∀ text expected, ratioEval text expected = ratioSpec text expected := by
    intro text expected
    unfold ratioEval ratioSpec
    simp only [hiff]
  refine ⟨heq, ?_, ?_, ?_, ?_⟩ <;> rw [heq] <;> decide

/-- C4: the replica-match evaluation agrees with the specification's
description — a resource is an issue exactly when its trailing
`available/desired` pair has a single slash and differing sides, zero
candidate lines are UNKNOWN, zero issues OK, one or two issues WARNING
with the names, more than two CRITICAL with the count — and the spec's
worked examples hold: three matching resources are OK, one mismatch of
two is WARNING naming it, three mismatches of five are CRITICAL. -/
theorem claim4_replica_match :
    (∀ stdout, replicaEval stdout = replicaSpec stdout) ∧
    replicaEval ("a:3/3\nb:2/2\nc:1/1".toList) =
      (CheckStatus.OK, Msg.allResourcesOk 3) ∧
    replicaEval ("a:2/3\nb:1/1".toList) =
      (CheckStatus.WARNING, Msg.someResources [['a']]) ∧
    replicaEval ("a:1/2\nb:1/2\nc:1/2\nd:3/3\ne:4/4".toList) =
      (CheckStatus.CRITICAL, Msg.manyResources 3) ∧
    replicaEval ("".toList) = (CheckStatus.UNKNOWN, Msg.noTargets) := by
  have heq : ∀ stdout, replicaEval stdout = replicaSpec stdout := by
    intro s
    have hval : ¬(replicaValue s = "N/A".toList) := by
      unfold replicaValue
      split_ifs with h
      · exact h.2
      · decide
    have hissues : replicaIssues s = (replicaLines s).filterMap lineIssueSpec := by
      apply List.filterMap_congr
      intro l hlmem
      apply lineIssue_eq_spec
      have hpred := List.of_mem_filter hlmem
      simp only [Bool.and_eq_true] at hpred
      exact hpred.1.2
    unfold replicaEval replicaSpec
    rw [hissues]
    simp only [hval, or_false]
  refine ⟨heq, ?_, ?_, ?_, ?_⟩ <;> rw [heq] <;> decide

/-- The usage fold over any accumulator equals the maximum fold over the
parseable row values, with the flag recording whether any row parsed. -/
theorem usageStep_foldl (cpu : Bool) (ls : List (List Char)) (q : ℚ) (b : Bool) :
    ls.foldl (usageStep cpu) (q, b) =
      ((ls.filterMap (rowVal cpu)).foldl max q,
        b || !(ls.filterMap (rowVal cpu)).isEmpty) := by
  induction ls generalizing q b with
  | nil => simp
  | cons l ls ih =>
    cases h : rowVal cpu l with
    | none =>
      simp only [List.foldl_cons, List.filterMap_cons, h, usageStep]
      exact ih q b
    | some x =>
      simp only [List.foldl_cons, List.filterMap_cons, h, usageStep]
      rw [ih (max q x) true]
      simp

/-- Parts-level evaluation of one report row. -/
theorem rowVal_eval (cpu : Bool) (line colstr : List Char)
    (hlen : 5 ≤ (wordsCh line).length)
    (hcol : ((wordsCh line).getD (if cpu then 2 else 4) []).filter
      (fun c => !(c == '%')) = colstr) :
    rowVal cpu line = pyFloat colstr := by
  unfold rowVal
  rw [if_pos hlen, hcol]

/-- A row with fewer than five columns is skipped. -/
theorem rowVal_short (cpu : Bool) (line : List Char)
    (h : ¬5 ≤ (wordsCh line).length) : rowVal cpu line = none := by
  unfold rowVal
  rw [if_neg h]

/-- A non-negative integer float literal. -/
theorem pyFloat_nat (s ds : List Char) (a : ℕ)
    (hp : pyFloatParts s = some ⟨false, ds, [], false, []⟩)
    (ha : digitsVal ds = a) : pyFloat s = some (a : ℚ) := by
  rw [pyFloat, hp, Option.map_some']
  rw [show FloatParts.val ⟨false, ds, [], false, []⟩ = (a : ℚ) from by
    rw [FloatParts.val, decValue_eval ha rfl rfl]
    norm_num [digitsVal]]

/-- A negative integer float literal. -/
theorem pyFloat_negNat (s ds : List Char) (a : ℕ)
    (hp : pyFloatParts s = some ⟨true, ds, [], false, []⟩)
    (ha : digitsVal ds = a) : pyFloat s = some (-(a : ℚ)) := by
  rw [pyFloat, hp, Option.map_some']
  rw [show FloatParts.val ⟨true, ds, [], false, []⟩ = (-(a : ℚ)) from by
    rw [FloatParts.val, decValue_eval ha rfl rfl]
    norm_num [digitsVal]]

/-- C5 (counterexample): the claim fails as stated — the extraction does
not return the maximum over the rows when that maximum is negative (the
accumulator starts at `0.0`, so a lone row value `-5` yields `0`), and a
report with no parseable percentage does not always surface the distinct
metrics message: when the raw text still contains a digit run the
threshold route classifies it normally (here `node1 10m` extracts `1`,
classifying OK with the in-range message). -/
theorem claim5_cex :
    usageRows ("node1 1m -5% 2Mi 7%".toList) true = [(-5 : ℚ)] ∧
    (usageScan ("node1 1m -5% 2Mi 7%".toList) true).1 = 0 ∧
    k8sCheck ⟨"K8S-002", none, some 80⟩ ("node1 10m".toList) [] 0 =
      (CheckStatus.OK, Msg.inRange) := by
  have hrow : rowVal true ("node1 1m -5% 2Mi 7%".toList) = some (-5 : ℚ) := by
    rw [rowVal_eval true ("node1 1m -5% 2Mi 7%".toList) ("-5".toList)
      (by decide) (by decide)]
    exact pyFloat_negNat ("-5".toList) ['5'] 5 (by decide) (by decide)
  have hlines : usageLines ("node1 1m -5% 2Mi 7%".toList) =
      [("node1 1m -5% 2Mi 7%".toList)] := by decide
  refine ⟨?_, ?_, ?_⟩
  · rw [usageRows, hlines]
    simp only [List.filterMap_cons, hrow, List.filterMap_nil]
  · rw [usageScan, hlines, List.foldl_cons, List.foldl_nil, usageStep, hrow]
    exact max_eq_left (by norm_num)
  · have hnorm : k8sNorm "K8S-002" ("node1 10m".toList) 0 =
        (("node1 10m".toList), 0) := by decide
    have hobs : k8sObserved "K8S-002" ("node1 10m".toList) =
        .raw ("node1 10m".toList) := by decide
    have hx : extractNumeric ("node1 10m".toList) = some 1 := by
      rw [extractNumeric_eq_parts
        (show firstNumParts (cleanValue ("node1 10m".toList)) =
          some (['1'], []) by decide)]
      rw [decValue_eval (show digitsVal ['1'] = 1 by decide)
        (show digitsVal [] = 0 by decide) (show List.length [] = 0 by decide)]
      norm_num
    have hst : evalThresholdObs (k8sObserved "K8S-002" ("node1 10m".toList))
        80 "K8S-002" = CheckStatus.OK := by
      rw [hobs]
      show evalThreshold ("node1 10m".toList) 80 "K8S-002" = CheckStatus.OK
      rw [evalThreshold_some 80 "K8S-002" hx, if_neg (by decide)]
      exact classifyThreshold_low (by norm_num)
    unfold k8sCheck
    rw [hnorm, if_neg (by decide), if_neg (by simp)]
    show (evalThresholdObs (k8sObserved "K8S-002" ("node1 10m".toList)) 80 "K8S-002",
      k8sThresholdMsg
        (evalThresholdObs (k8sObserved "K8S-002" ("node1 10m".toList)) 80 "K8S-002")
        "K8S-002") = (CheckStatus.OK, Msg.inRange)
    rw [hst]
    decide

/-- C5 (amended): the resource-usage extraction drops a header line
containing `NAME` or `CPU`, reads column 2 (CPU) or 4 (memory) of every
row with at least five columns stripping `%` characters, and returns the
maximum of `0.0` and all parsed row values together with a flag recording
whether any row parsed (so the spec's worked example yields CPU `45.0`
and memory `71.0`); and when a `K8S-002`/`K8S-003` item's threshold
evaluation of the observed value lands UNKNOWN, the check surfaces the
distinct metrics-parse message instead of the generic unknown-value
message. -/
theorem claim5_usage_extraction :
    (∀ stdout cpu, usageScan stdout cpu =
      ((usageRows stdout cpu).foldl max 0, !(usageRows stdout cpu).isEmpty)) ∧
    usageScan (("NAME CPU(cores) CPU% MEMORY(bytes) MEMORY%\n" ++
      "node1 10m 32% 500Mi 58%\nnode2 20m 45% 600Mi 71%").toList) true =
      (45, true) ∧
    usageScan (("NAME CPU(cores) CPU% MEMORY(bytes) MEMORY%\n" ++
      "node1 10m 32% 500Mi 58%\nnode2 20m 45% 600Mi 71%").toList) false =
      (71, true) ∧
    (∀ stdout stderr rc t id, (id = "K8S-002" ∨ id = "K8S-003") →
      ¬execFailed stderr stdout rc →
      evalThresholdObs (k8sObserved id stdout) t id = CheckStatus.UNKNOWN →
      k8sCheck ⟨id, none, some t⟩ stdout stderr rc =
        (CheckStatus.UNKNOWN, Msg.metricsParseFailed)) := by
  have heq : ∀ stdout cpu, usageScan stdout cpu =
      ((usageRows stdout cpu).foldl max 0, !(usageRows stdout cpu).isEmpty) := by
    intro stdout cpu
    rw [usageScan, usageRows, usageStep_foldl cpu (usageLines stdout) 0 false,
      Bool.false_or]
  have hlines : usageLines (("NAME CPU(cores) CPU% MEMORY(bytes) MEMORY%\n" ++
      "node1 10m 32% 500Mi 58%\nnode2 20m 45% 600Mi 71%").toList) =
      [("node1 10m 32% 500Mi 58%".toList), ("node2 20m 45% 600Mi 71%".toList)] := by
    decide
  refine ⟨heq, ?_, ?_, ?_⟩
  · have h1 : rowVal true ("node1 10m 32% 500Mi 58%".toList) = some (32 : ℚ) := by
      rw [rowVal_eval true _ ("32".toList) (by decide) (by decide)]
      exact pyFloat_nat ("32".toList) ['3', '2'] 32 (by decide) (by decide)
    have h2 : rowVal true ("node2 20m 45% 600Mi 71%".toList) = some (45 : ℚ) := by
      rw [rowVal_eval true _ ("45".toList) (by decide) (by decide)]
      exact pyFloat_nat ("45".toList) ['4', '5'] 45 (by decide) (by decide)
    rw [heq, usageRows, hlines]
    simp only [List.filterMap_cons, h1, h2, List.filterMap_nil, List.foldl_cons,
      List.foldl_nil, List.isEmpty_cons, Bool.not_false]
    rw [max_eq_right (by norm_num : (0 : ℚ) ≤ 32),
      max_eq_right (by norm_num : (32 : ℚ) ≤ 45)]
  · have h1 : rowVal false ("node1 10m 32% 500Mi 58%".toList) = some (58 : ℚ) := by
      rw [rowVal_eval false _ ("58".toList) (by decide) (by decide)]
      exact pyFloat_nat ("58".toList) ['5', '8'] 58 (by decide) (by decide)
    have h2 : rowVal false ("node2 20m 45% 600Mi 71%".toList) = some (71 : ℚ) := by
      rw [rowVal_eval false _ ("71".toList) (by decide) (by decide)]
      exact pyFloat_nat ("71".toList) ['7', '1'] 71 (by decide) (by decide)
    rw [heq, usageRows, hlines]
    simp only [List.filterMap_cons, h1, h2, List.filterMap_nil, List.foldl_cons,
      List.foldl_nil, List.isEmpty_cons, Bool.not_false]
    rw [max_eq_right (by norm_num : (0 : ℚ) ≤ 58),
      max_eq_right (by norm_num : (58 : ℚ) ≤ 71)]
  · intro stdout stderr rc t id hid hfail hun
    have hnorm : k8sNorm id stdout rc = (stdout, rc) := by
      unfold k8sNorm
      rw [if_neg]
      rintro ⟨h8, _, _⟩
      rcases hid with rfl | rfl <;> exact absurd h8 (by decide)
    unfold k8sCheck
    rw [hnorm, if_neg hfail, if_neg (by simp)]
    show (evalThresholdObs (k8sObserved id stdout) t id,
      k8sThresholdMsg (evalThresholdObs (k8sObserved id stdout) t id) id) =
      (CheckStatus.UNKNOWN, Msg.metricsParseFailed)
    rw [hun]
    unfold k8sThresholdMsg
    rw [if_neg (by simp), if_neg (by simp), if_neg (by simp), if_pos hid]

/-- C5 (witness): a two-column report parses no row, its raw text
extracts no number, and the `K8S-002` check reports the distinct metrics
message. -/
theorem claim5_witness :
    k8sCheck ⟨"K8S-002", none, some 80⟩ ("no data".toList) [] 0 =
      (CheckStatus.UNKNOWN, Msg.metricsParseFailed) := by
  apply claim5_usage_extraction.2.2.2 ("no data".toList) [] 0 80 "K8S-002"
    (Or.inl rfl) (by decide)
  have hobs : k8sObserved "K8S-002" ("no data".toList) =
      .raw ("no data".toList) := by decide
  rw [hobs]
  show evalThreshold ("no data".toList) 80 "K8S-002" = CheckStatus.UNKNOWN
  exact evalThreshold_none 80 "K8S-002" (extractNumeric_eq_none (by decide))

/-- C6 (counterexample): the claim fails as stated — the OS category
emits the display value untruncated, so a 301-character value stays 301
characters long. -/
theorem claim6_cex :
    ((osEmit (List.replicate 301 'x')).value).length = 301 ∧ ¬(301 ≤ 300) := by
  constructor
  · simp [osEmit]
  · decide

/-- C6 (amended): the Kubernetes and Services emissions truncate the
display value to at most 300 characters and the raw-output field to at
most 500, while the OS emission stores both fields untruncated; numeric
extraction is performed on the original untruncated text — the service
threshold status is computed from the full stdout, and on a concrete
input whose number sits past position 300 the full text classifies OK
while the truncated display value would extract nothing. -/
theorem claim6_truncation :
    (∀ value stdout : List Char, (k8sEmit value stdout).value.length ≤ 300 ∧
      (k8sEmit value stdout).rawOutput.length ≤ 500) ∧
    (∀ value : List Char, (svcEmit value).value.length ≤ 300 ∧
      (svcEmit value).rawOutput.length ≤ 500) ∧
    (∀ value : List Char, osEmit value = ⟨value, value⟩) ∧
    (∀ stdout t id, (svcThresholdCheck stdout t id).1 = evalThreshold stdout t id) ∧
    (svcThresholdCheck (List.replicate 305 'x' ++ " 42".toList) 100 "SVC-005").1 =
      CheckStatus.OK ∧
    evalThreshold
      ((svcThresholdCheck (List.replicate 305 'x' ++ " 42".toList) 100 "SVC-005").2.value)
      100 "SVC-005" = CheckStatus.UNKNOWN := by
  refine ⟨fun value stdout => ⟨?_, ?_⟩, fun value => ⟨?_, ?_⟩, fun value => rfl,
    fun stdout t id => rfl, ?_, ?_⟩
  · show (if value ≠ [] then value.take 300 else "N/A".toList).length ≤ 300
    split_ifs
    · rw [List.length_take]; exact min_le_left _ _
    · decide
  · show (if stdout ≠ [] then stdout.take 500 else []).length ≤ 500
    split_ifs
    · rw [List.length_take]; exact min_le_left _ _
    · decide
  · show (if value ≠ [] then value.take 300 else "N/A".toList).length ≤ 300
    split_ifs
    · rw [List.length_take]; exact min_le_left _ _
    · decide
  · show (if value ≠ [] then value.take 500 else []).length ≤ 500
    split_ifs
    · rw [List.length_take]; exact min_le_left _ _
    · decide
  · have hx : extractNumeric (List.replicate 305 'x' ++ " 42".toList) = some 42 := by
      rw [extractNumeric_eq_parts
        (show firstNumParts (cleanValue (List.replicate 305 'x' ++ " 42".toList)) =
          some (['4', '2'], []) by decide),
        decValue_eval (show digitsVal ['4', '2'] = 42 by decide)
          (show digitsVal [] = 0 by decide) (show List.length [] = 0 by decide)]
      norm_num
    show evalThreshold (List.replicate 305 'x' ++ " 42".toList) 100 "SVC-005" =
      CheckStatus.OK
    rw [evalThreshold_some 100 "SVC-005" hx, if_neg (by decide)]
    exact classifyThreshold_low (by norm_num)
  · have hval : (svcThresholdCheck (List.replicate 305 'x' ++ " 42".toList)
        100 "SVC-005").2.value = List.replicate 300 'x' := by decide
    rw [hval]
    exact evalThreshold_none 100 "SVC-005" (extractNumeric_eq_none (by decide))

/-- C9 (counterexample): the claim fails as stated — a `K8S-008` probe
that exits non-zero with empty output but with an error-bearing stderr is
still classified UNKNOWN (the error test inspects the original stderr
after the normalization), not OK. -/
theorem claim9_cex :
    k8sCheck ⟨"K8S-008", none, some 1⟩ [] ("error: not found".toList) 1 =
      (CheckStatus.UNKNOWN, Msg.checkFailed) := by
  decide

/-- C9 (amended): when a `K8S-008` probe exits non-zero with empty output
and its stderr does not contain `error`, the result is normalized to a
synthetic `"0"` and classified through the zero-is-ok path, yielding OK
with the in-range message; every other item with a non-zero exit code and
empty output is classified UNKNOWN. -/
theorem claim9_k8s008 (stdout stderr : List Char) (rc : Int) (t : ℚ)
    (item : K8sItem) :
    (rc ≠ 0 → stdout = [] →
      containsSub ("error".toList) (lowerCh stderr) = false →
      k8sCheck ⟨"K8S-008", none, some t⟩ stdout stderr rc =
        (CheckStatus.OK, Msg.inRange)) ∧
    (item.id ≠ "K8S-008" → rc ≠ 0 → stdout = [] →
      (k8sCheck item stdout stderr rc).1 = CheckStatus.UNKNOWN) := by
  constructor
  · intro hrc hout herr
    subst hout
    have hnorm : k8sNorm "K8S-008" [] rc = ("0".toList, 0) := by
      unfold k8sNorm
      rw [if_pos ⟨rfl, hrc, rfl⟩]
    unfold k8sCheck
    rw [hnorm]
    rw [if_neg (by
      rintro (h1 | ⟨h0, _⟩)
      · rw [herr] at h1; exact absurd h1 (by decide)
      · exact h0 rfl)]
    rw [if_neg (by simp)]
    have hobs : k8sObserved "K8S-008" ("0".toList) = .raw ("0".toList) := by decide
    have hx : extractNumeric ("0".toList) = some 0 := by
      rw [extractNumeric_eq_parts
        (show firstNumParts (cleanValue ("0".toList)) = some (['0'], []) by decide),
        decValue_eval (show digitsVal ['0'] = 0 by decide)
          (show digitsVal [] = 0 by decide) (show List.length [] = 0 by decide)]
      norm_num
    have hst : evalThresholdObs (k8sObserved "K8S-008" ("0".toList)) t "K8S-008" =
        CheckStatus.OK := by
      rw [hobs]
      show evalThreshold ("0".toList) t "K8S-008" = CheckStatus.OK
      rw [evalThreshold_some t "K8S-008" hx, if_pos (by decide)]
      exact classifyZero_at_zero rfl
    show (evalThresholdObs (k8sObserved "K8S-008" ("0".toList)) t "K8S-008",
      k8sThresholdMsg
        (evalThresholdObs (k8sObserved "K8S-008" ("0".toList)) t "K8S-008")
        "K8S-008") = (CheckStatus.OK, Msg.inRange)
    rw [hst]
    decide
  · intro hid hrc hout
    subst hout
    have hnorm : k8sNorm item.id [] rc = ([], rc) := by
      unfold k8sNorm
      rw [if_neg]
      rintro ⟨h8, _, _⟩
      exact hid h8
    unfold k8sCheck
    rw [hnorm, if_pos (show execFailed stderr ([], rc).1 ([], rc).2 from
      Or.inr ⟨hrc, rfl⟩)]
    split_ifs <;> rfl

/-- C9 (witness): the normalization instance at exit code 1 with empty
output and stderr, and the UNKNOWN classification of another item in the
same situation. -/
theorem claim9_witness :
    k8sCheck ⟨"K8S-008", none, some 5⟩ [] [] 1 = (CheckStatus.OK, Msg.inRange) ∧
    (k8sCheck ⟨"K8S-001", none, none⟩ [] [] 1).1 = CheckStatus.UNKNOWN := by
  exact ⟨(claim9_k8s008 [] [] 1 5 ⟨"K8S-001", none, none⟩).1 (by decide) rfl (by decide),
    (claim9_k8s008 [] [] 1 5 ⟨"K8S-001", none, none⟩).2 (by decide) (by decide) rfl⟩

/-- Adding the empty counter group is the identity. -/
theorem add_zero_counts (k : CatCounts) : k.add CatCounts.zero = k := by
  simp [CatCounts.add, CatCounts.zero]

/-- Adding to the empty counter group is the identity. -/
theorem zero_add_counts (k : CatCounts) : CatCounts.zero.add k = k := by
  simp [CatCounts.add, CatCounts.zero]

/-- Bumping commutes across counter addition. -/
theorem bump_add_comm (k c : CatCounts) (st : CheckStatus) :
    (k.bump st).add c = k.add (c.bump st) := by
  cases st <;> simp [CatCounts.add, CatCounts.bump] <;> omega

/-- One result row increments the matching category's counter. -/
theorem countsFor_cons (c : String) (r : ResultRow) (rs : List ResultRow) :
    countsFor c (r :: rs) =
      if r.category = c then (countsFor c rs).bump r.status
      else countsFor c rs := by
  by_cases hc : r.category = c <;>
    cases hst : r.status <;>
      simp [countsFor, List.countP_cons, hc, hst, CatCounts.bump]

/-- The aggregation fold adds each key's accumulated counters to the
initial dictionary entries. -/
theorem foldl_bump_shape (rs : List ResultRow) (m : List (String × CatCounts)) :
    rs.foldl (fun m r => bumpCategory m r.category r.status) m =
      m.map (fun p => (p.1, p.2.add (countsFor p.1 rs))) := by
  induction rs generalizing m with
  | nil => simp [countsFor, CatCounts.add]
  | cons r rs ih =>
    rw [List.foldl_cons, ih (bumpCategory m r.category r.status), bumpCategory,
      List.map_map]
    apply List.map_congr_left
    intro p _
    simp only [Function.comp_apply]
    by_cases hc : p.1 = r.category
    · rw [if_pos hc, countsFor_cons]
      rw [if_pos hc.symm]
      exact congrArg (fun k => (p.1, k)) (bump_add_comm p.2 (countsFor p.1 rs) r.status)
    · rw [if_neg hc, countsFor_cons, if_neg (fun h => hc h.symm)]

/-- The shape of every generated summary: overall counts plus the three
per-category counter groups. -/
theorem getSummary_eq (rs : List ResultRow) (h : rs ≠ []) :
    getSummary rs = some
      { total := rs.length
        ok := rs.countP (fun r => r.status == CheckStatus.OK)
        warning := rs.countP (fun r => r.status == CheckStatus.WARNING)
        critical := rs.countP (fun r => r.status == CheckStatus.CRITICAL)
        unknown := rs.countP (fun r => r.status == CheckStatus.UNKNOWN)
        byCategory := [("OS", countsFor "OS" rs),
          ("Kubernetes", countsFor "Kubernetes" rs),
          ("Services", countsFor "Services" rs)] } := by
  unfold getSummary
  rw [if_neg h]
  apply congrArg some
  rw [Summary.mk.injEq]
  refine ⟨rfl, rfl, rfl, rfl, rfl, ?_⟩
  rw [foldl_bump_shape rs initByCategory]
  simp [initByCategory, zero_add_counts]

/-- The four counters of one category sum to that category's row count. -/
theorem countsFor_sum (c : String) (rs : List ResultRow) :
    (countsFor c rs).ok + (countsFor c rs).warning + (countsFor c rs).critical +
      (countsFor c rs).unknown = rs.countP (fun r => r.category == c) := by
  induction rs with
  | nil => simp [countsFor]
  | cons r rs ih =>
    by_cases hc : r.category = c <;> cases hst : r.status <;>
      simp [countsFor, List.countP_cons, hc, hst] at ih ⊢ <;> omega

/-- Rows drawn from the three categories are partitioned by them. -/
theorem countP_three (rs : List ResultRow)
    (hcat : ∀ r ∈ rs, r.category ∈ catKeys) :
    rs.countP (fun r => r.category == "OS") +
      rs.countP (fun r => r.category == "Kubernetes") +
      rs.countP (fun r => r.category == "Services") = rs.length := by
  induction rs with
  | nil => simp
  | cons r rs ih =>
    have hr := hcat r (List.mem_cons_self r rs)
    have ihh := ih (fun x hx => hcat x (List.mem_cons_of_mem r hx))
    simp only [List.countP_cons, List.length_cons]
    rcases (show r.category = "OS" ∨ r.category = "Kubernetes" ∨
        r.category = "Services" by simpa [catKeys] using hr) with h | h | h <;>
      simp [h, show ("OS" : String) ≠ "Kubernetes" by decide,
        show ("OS" : String) ≠ "Services" by decide,
        show ("Kubernetes" : String) ≠ "OS" by decide,
        show ("Kubernetes" : String) ≠ "Services" by decide,
        show ("Services" : String) ≠ "OS" by decide,
        show ("Services" : String) ≠ "Kubernetes" by decide] <;> omega

/-- C7: in every generated summary over results drawn from the three
categories, each category's four per-status counts sum to the number of
results in that category, and the per-category sums across the three
categories equal the total count. -/
theorem claim7_summary_partition (rs : List ResultRow) (s : Summary)
    (hcat : ∀ r ∈ rs, r.category ∈ catKeys)
    (hs : getSummary rs = some s) :
    (∀ c k, (c, k) ∈ s.byCategory →
      k.ok + k.warning + k.critical + k.unknown =
        (rs.filter (fun r => r.category == c)).length) ∧
    (s.byCategory.map
      (fun p => p.2.ok + p.2.warning + p.2.critical + p.2.unknown)).sum =
      s.total := by
  have hne : rs ≠ [] := by
    intro h
    rw [h] at hs
    simp [getSummary] at hs
  rw [getSummary_eq rs hne, Option.some_inj] at hs
  subst hs
  constructor
  · intro c k hm
    simp only [List.mem_cons, List.not_mem_nil, or_false, Prod.mk.injEq] at hm
    rcases hm with ⟨rfl, rfl⟩ | ⟨rfl, rfl⟩ | ⟨rfl, rfl⟩ <;>
      rw [← List.countP_eq_length_filter] <;> exact countsFor_sum _ rs
  · simp only [List.map_cons, List.map_nil, List.sum_cons, List.sum_nil, add_zero]
    rw [countsFor_sum "OS" rs, countsFor_sum "Kubernetes" rs,
      countsFor_sum "Services" rs]
    have h3 := countP_three rs hcat
    omega

/-- C7 (witness): the summary of a concrete two-category result list
satisfies the partition invariant. -/
theorem claim7_witness :
    (demoSummary.byCategory.map
      (fun p => p.2.ok + p.2.warning + p.2.critical + p.2.unknown)).sum =
      demoSummary.total :=
  (claim7_summary_partition demoRows demoSummary (by decide) (by decide)).2

/-- C8 (counterexample): the claim fails as stated — on the empty result
sequence the aggregator returns an empty dictionary with no category
keys at all (modeled as `none`), so a consumer indexing a category key
does hit an absent key. -/
theorem claim8_cex : getSummary ([] : List ResultRow) = none := rfl

/-- C8 (amended): every summary generated from a non-empty result
sequence carries exactly the three category keys, a category with no
results keeps the all-zero counter group, and the empty sequence instead
yields an empty summary; aggregation is a pure function of the result
sequence, so re-running it yields identical values. -/
theorem claim8_initialized (rs : List ResultRow) (s : Summary)
    (hs : getSummary rs = some s) :
    s.byCategory.map Prod.fst = catKeys ∧
    (∀ c, c ∈ catKeys → rs.countP (fun r => r.category == c) = 0 →
      (c, CatCounts.zero) ∈ s.byCategory) ∧
    getSummary ([] : List ResultRow) = none := by
  have hne : rs ≠ [] := by
    intro h
    rw [h] at hs
    simp [getSummary] at hs
  rw [getSummary_eq rs hne, Option.some_inj] at hs
  subst hs
  refine ⟨by simp [catKeys], ?_, rfl⟩
  intro c hc h0
  have hz : countsFor c rs = CatCounts.zero := by
    have hsum := countsFor_sum c rs
    rw [h0] at hsum
    cases hk : countsFor c rs with
    | mk a b c' d =>
      rw [hk] at hsum
      simp only [CatCounts.zero, CatCounts.mk.injEq]
      simp only at hsum
      omega
  rcases (show c = "OS" ∨ c = "Kubernetes" ∨ c = "Services" by
      simpa [catKeys] using hc) with rfl | rfl | rfl <;>
    rw [← hz] <;> simp

/-- C8 (witness): the summary of a single OS result still carries the
Kubernetes counter group, initialized to zero. -/
theorem claim8_witness :
    ("Kubernetes", CatCounts.zero) ∈ demoSummaryOne.byCategory :=
  (claim8_initialized demoRowsOne demoSummaryOne (by decide)).2.1
    "Kubernetes" (by decide) (by decide)

end AiLLMOps
